import Mathlib

/-!
Verification of the online_shop candidate generator and purchase-order
optimizer, shallowly embedded over exact rationals.

Source files modelled:
  * `src/python/productcreator.py` — range generators, plausibility filter,
    retail-price and base-demand derivation, candidate generation.
  * `src/python/spcplan.py` — demand forecast, optimizer variable/constraint
    construction, result extraction, failure semantics.
  * `src/python/config_models.py` — tier tables (default values).

Python floats are modelled as rationals; `int(x)` is truncation toward zero
(`pyInt`), `round(x, 2)` is round-half-to-even at two decimals (`pyRound2`).
Unbounded `while` loops are modelled with an explicit fuel parameter, so that
non-termination of the source loop appears as `none` for every fuel.
-/

namespace OnlineShop

/-- Python `int(x)` on a float: truncation toward zero. -/
def pyInt (x : ℚ) : ℤ := if 0 ≤ x then ⌊x⌋ else ⌈x⌉

/-- Round to the nearest integer, ties to even — Python's `round(x)` on exact values. -/
def roundHalfEven (x : ℚ) : ℤ :=
  if x - ⌊x⌋ < 1/2 then ⌊x⌋
  else if 1/2 < x - ⌊x⌋ then ⌊x⌋ + 1
  else if ⌊x⌋ % 2 = 0 then ⌊x⌋ else ⌊x⌋ + 1

/-- Python `round(x, 2)`: round to two decimal places. -/
def pyRound2 (x : ℚ) : ℚ := (roundHalfEven (x * 100) : ℚ) / 100

/-- The `while current <= max: append(round(current, 2)); current += step` loop shared
by `generate_price_range`, `generate_weight_range`, `generate_size_range` and
`generate_shipping_costs` in `productcreator.py`, with explicit fuel.
`none` means the loop did not finish within the given fuel. -/
def genRangeFuel (maxv step : ℚ) : ℕ → ℚ → Option (List ℚ)
  | 0, current => if current ≤ maxv then none else some []
  | n + 1, current =>
      if current ≤ maxv then
        (genRangeFuel maxv step n (current + step)).map (fun l => pyRound2 current :: l)
      else some []

/-- `generate_price_range(min_price, max_price, step)` from `productcreator.py`. -/
def generate_price_range (fuel : ℕ) (min_price max_price step : ℚ) : Option (List ℚ) :=
  genRangeFuel max_price step fuel min_price

/-- `generate_weight_range(min_weight, max_weight, step)` from `productcreator.py`. -/
def generate_weight_range (fuel : ℕ) (min_weight max_weight step : ℚ) : Option (List ℚ) :=
  genRangeFuel max_weight step fuel min_weight

/-- `generate_size_range(min_size, max_size, step)` from `productcreator.py`. -/
def generate_size_range (fuel : ℕ) (min_size max_size step : ℚ) : Option (List ℚ) :=
  genRangeFuel max_size step fuel min_size

/-- `generate_shipping_costs(freight_min, freight_max, freight_step)` from `productcreator.py`. -/
def generate_shipping_costs (fuel : ℕ) (freight_min freight_max freight_step : ℚ) :
    Option (List ℚ) :=
  genRangeFuel freight_max freight_step fuel freight_min

lemma floor_eq_of (x : ℚ) (a : ℤ) (h1 : (a : ℚ) ≤ x) (h2 : x < a + 1) : ⌊x⌋ = a :=
  Int.floor_eq_iff.mpr ⟨h1, h2⟩

lemma roundHalfEven_intCast (a : ℤ) : roundHalfEven (a : ℚ) = a := by
  unfold roundHalfEven
  rw [Int.floor_intCast]
  rw [if_pos]
  simp only [sub_self]
  norm_num

lemma pyRound2_of_hundredth (x : ℚ) (a : ℤ) (hx : x * 100 = (a : ℚ)) : pyRound2 x = x := by
  unfold pyRound2
  rw [hx, roundHalfEven_intCast, ← hx]
  field_simp

lemma genRangeFuel_zero_step (fuel : ℕ) :
    genRangeFuel 10 0 fuel 1 = none := by
  induction fuel with
  | zero =>
      norm_num [genRangeFuel]
  | succ n ih =>
      simp only [genRangeFuel]
      rw [if_pos (by norm_num)]
      norm_num [ih]

lemma genRangeFuel_terminates (step : ℚ) (hstep : 0 < step) (maxv : ℚ) :
    ∀ n : ℕ, ∀ current : ℚ, ⌈(maxv - current) / step⌉ < (n : ℤ) →
      ∃ l, genRangeFuel maxv step n current = some l := by
  intro n
  induction n with
  | zero =>
      intro current h
      have hneg : (maxv - current) / step < 0 := by
        by_contra hc
        push_neg at hc
        have : (0 : ℤ) ≤ ⌈(maxv - current) / step⌉ := by
          exact_mod_cast Int.ceil_nonneg hc
        omega
      have hlt : maxv - current < 0 := by
        by_contra hc
        push_neg at hc
        exact absurd (div_nonneg hc (le_of_lt hstep)) (not_le.mpr hneg)
      refine ⟨[], ?_⟩
      simp only [genRangeFuel]
      rw [if_neg (by linarith)]
  | succ n ih =>
      intro current h
      by_cases hc : current ≤ maxv
      · have hnext : ⌈(maxv - (current + step)) / step⌉ < (n : ℤ) := by
          have harg : (maxv - (current + step)) / step = (maxv - current) / step - 1 := by
            field_simp
            ring
          rw [harg, Int.ceil_sub_one]
          push_cast at h ⊢
          omega
        obtain ⟨l, hl⟩ := ih (current + step) hnext
        refine ⟨pyRound2 current :: l, ?_⟩
        simp only [genRangeFuel]
        rw [if_pos hc, hl]
        rfl
      · refine ⟨[], ?_⟩
        simp only [genRangeFuel]
        rw [if_neg hc]

lemma genRangeFuel_props (maxv step : ℚ) (hstep : 0 < step) (b : ℤ)
    (hstep100 : step * 100 = (b : ℚ)) :
    ∀ (fuel : ℕ) (current : ℚ) (a : ℤ), current * 100 = (a : ℚ) →
      ∀ l, genRangeFuel maxv step fuel current = some l →
        (current ≤ maxv →
          l.head? = some current ∧ l.Chain' (· < ·) ∧
          ∃ last, l.getLast? = some last ∧ last ≤ maxv ∧ maxv < last + step) ∧
        (maxv < current → l = []) := by
  intro fuel
  induction fuel with
  | zero =>
      intro current a ha l hl
      simp only [genRangeFuel] at hl
      by_cases hc : current ≤ maxv
      · rw [if_pos hc] at hl
        exact absurd hl (by simp)
      · rw [if_neg hc] at hl
        refine ⟨fun h => absurd h hc, fun _ => ?_⟩
        exact (Option.some_inj.mp hl).symm
  | succ n ih =>
      intro current a ha l hl
      simp only [genRangeFuel] at hl
      by_cases hc : current ≤ maxv
      · rw [if_pos hc] at hl
        obtain ⟨l', hl', rfl⟩ := Option.map_eq_some'.mp hl
        have hcur : pyRound2 current = current := pyRound2_of_hundredth current a ha
        have hnext : (current + step) * 100 = ((a + b : ℤ) : ℚ) := by
          push_cast
          rw [add_mul, ha, hstep100]
        have IH := ih (current + step) (a + b) hnext l' hl'
        refine ⟨fun _ => ?_, fun h => absurd hc (not_le.mpr h)⟩
        by_cases hc2 : current + step ≤ maxv
        · obtain ⟨hhead, hchain, last, hlast, hle, hgt⟩ := IH.1 hc2
          cases l' with
          | nil => simp at hhead
          | cons x xs =>
              have hx : x = current + step := by
                simpa using hhead
              refine ⟨by simp [hcur], ?_, last, ?_, hle, hgt⟩
              · rw [hcur]
                refine List.chain'_cons'.mpr ⟨?_, hchain⟩
                intro y hy
                simp at hy
                have hyx : y = current + step := by rw [← hy]; exact hx
                rw [hyx]
                linarith
              · rw [hcur, List.getLast?_cons_cons]
                simpa using hlast
        · have hl'nil : l' = [] := IH.2 (not_le.mp hc2)
          subst hl'nil
          refine ⟨by simp [hcur], by simp, current, by simp [hcur], hc, not_le.mp hc2⟩
      · rw [if_neg hc] at hl
        refine ⟨fun h => absurd h hc, fun _ => (Option.some_inj.mp hl).symm⟩

/-- C2: with step ≤ 0 the range loop of `generate_price_range` (and the identical
weight/size/shipping loops) never terminates — the code does NOT signal an error; with
step > 0 the loop terminates for every min and max. The first conjunct evaluates the
loop at the failing input `generate_price_range(1, 10, 0)`: no amount of fuel makes
it finish. -/
theorem generate_range_step_semantics :
    (∀ fuel, generate_price_range fuel 1 10 0 = none) ∧
      ∀ minv maxv step : ℚ, 0 < step →
        ∃ fuel l, generate_price_range fuel minv maxv step = some l := by
  constructor
  · intro fuel
    exact genRangeFuel_zero_step fuel
  · intro minv maxv step hstep
    obtain ⟨l, hl⟩ := genRangeFuel_terminates step hstep maxv
      (⌈(maxv - minv) / step⌉ + 1).toNat minv (by
        have := Int.self_le_toNat (⌈(maxv - minv) / step⌉ + 1)
        omega)
    exact ⟨_, l, hl⟩

theorem generate_range_step_semantics_witness :
    (generate_price_range 5 1 10 0 = none) ∧ (0 < (3 : ℚ)) ∧
      ∃ fuel l, generate_price_range fuel 1 10 3 = some l :=
  ⟨generate_range_step_semantics.1 5, by norm_num,
    generate_range_step_semantics.2 1 10 3 (by norm_num)⟩

lemma generate_price_range_example : generate_price_range 5 1 10 3 = some [1, 4, 7, 10] := by
  have h1 : pyRound2 1 = 1 := pyRound2_of_hundredth 1 100 (by norm_num)
  have h4 : pyRound2 4 = 4 := pyRound2_of_hundredth 4 400 (by norm_num)
  have h7 : pyRound2 7 = 7 := pyRound2_of_hundredth 7 700 (by norm_num)
  have h10 : pyRound2 10 = 10 := pyRound2_of_hundredth 10 1000 (by norm_num)
  norm_num [generate_price_range, genRangeFuel, h1, h4, h7, h10]

/-- C7 (amended): for min ≤ max and min, step that are exact multiples of 0.01
(so that the source's `round(current, 2)` is the identity on every generated point),
any terminating run of the range generator is strictly ascending, starts at min,
ends at a last element ≤ max with last + step > max; and
`generate_price_range(1, 10, 3) = [1, 4, 7, 10]`. -/
theorem generate_range_ascending (minv maxv step : ℚ) (fuel : ℕ) (l : List ℚ)
    (hstep : 0 < step) (hmm : minv ≤ maxv) (a b : ℤ)
    (hmin100 : minv * 100 = (a : ℚ)) (hstep100 : step * 100 = (b : ℚ))
    (hrun : generate_price_range fuel minv maxv step = some l) :
    (l.head? = some minv ∧ l.Chain' (· < ·) ∧
      ∃ last, l.getLast? = some last ∧ last ≤ maxv ∧ maxv < last + step) ∧
      generate_price_range 5 1 10 3 = some [1, 4, 7, 10] :=
  ⟨(genRangeFuel_props maxv step hstep b hstep100 fuel minv a hmin100 l hrun).1 hmm,
    generate_price_range_example⟩

theorem generate_range_ascending_witness :
    (0 < (3 : ℚ)) ∧ ((1 : ℚ) ≤ 10) ∧ ((1 : ℚ) * 100 = ((100 : ℤ) : ℚ)) ∧
      ((3 : ℚ) * 100 = ((300 : ℤ) : ℚ)) ∧
      (generate_price_range 5 1 10 3 = some [1, 4, 7, 10]) ∧
      (([1, 4, 7, 10] : List ℚ).head? = some 1 ∧ ([1, 4, 7, 10] : List ℚ).Chain' (· < ·) ∧
        ∃ last, ([1, 4, 7, 10] : List ℚ).getLast? = some last ∧ last ≤ 10 ∧ (10 : ℚ) < last + 3) :=
  ⟨by norm_num, by norm_num, by norm_num, by norm_num, generate_price_range_example,
    (generate_range_ascending 1 10 3 5 [1, 4, 7, 10] (by norm_num) (by norm_num) 100 300
      (by norm_num) (by norm_num) generate_price_range_example).1⟩

/-- C7 counterexample: with step = 0.001 the source's `round(current, 2)` collapses
distinct loop values onto the same output: `generate_price_range(1, 1.001, 0.001)`
returns [1, 1], which is not strictly ascending (and its first elements repeat min). -/
theorem generate_range_round_collapse :
    generate_price_range 3 1 (1001/1000) (1/1000) = some [1, 1] ∧
      ¬ ([1, 1] : List ℚ).Chain' (· < ·) := by
  constructor
  · have h1 : pyRound2 1 = 1 := pyRound2_of_hundredth 1 100 (by norm_num)
    have h2 : pyRound2 (1001/1000) = 1 := by
      have hf : ⌊(1001/1000 : ℚ) * 100⌋ = 100 := floor_eq_of _ 100 (by norm_num) (by norm_num)
      unfold pyRound2 roundHalfEven
      rw [hf]
      rw [if_pos (by norm_num)]
      norm_num
    norm_num [generate_price_range, genRangeFuel, h1, h2]
  · simp

/-- The density computation of `is_realistic_combination` (productcreator.py):
density = weight_kg / volume_liters when volume_liters > 0, else 0. -/
def densityOf (weight_g size_cm3 : ℚ) : ℚ :=
  if 0 < size_cm3 / 1000 then (weight_g / 1000) / (size_cm3 / 1000) else 0

/-- The value-per-kg computation of `is_realistic_combination`:
price / weight_kg when weight_kg > 0, else 0. -/
def valuePerKg (price weight_g : ℚ) : ℚ :=
  if 0 < weight_g / 1000 then price / (weight_g / 1000) else 0

/-- Rules 2 and 3 of `is_realistic_combination`: the density-independent heuristics. -/
def heuristicRules (price weight_g size_cm3 : ℚ) : Bool :=
  if price < 10 ∧ 5 < weight_g / 1000 then false
  else if price < 5 ∧ 10000 < size_cm3 then false
  else if 100 ≤ price ∧ price ≤ 1000 ∧ valuePerKg price weight_g < 10 then false
  else if 1000 ≤ price ∧ (valuePerKg price weight_g < 50 ∨ 30000 < size_cm3) then false
  else if 20000 < size_cm3 ∧ weight_g / 1000 < 1/2 then false
  else if 10 < weight_g / 1000 ∧ size_cm3 < 1000 ∧ price < 100 then false
  else true

/-- `is_realistic_combination(price, weight_kg, size_cm3, density_min, density_max)`
from `productcreator.py`; the weight argument is in grams and is converted to kg
inside, exactly as in the source. -/
def is_realistic_combination (price weight_g size_cm3 density_min density_max : ℚ) : Bool :=
  if densityOf weight_g size_cm3 < density_min ∨ density_max < densityOf weight_g size_cm3
  then false
  else heuristicRules price weight_g size_cm3

/-- `MarkupTier` from `config_models.py`. -/
structure MarkupTier where
  min_cost : ℚ
  max_cost : ℚ
  markup_multiplier : ℚ
deriving DecidableEq

/-- `DemandTier` from `config_models.py`. -/
structure DemandTier where
  min_price : ℚ
  max_price : ℚ
  base_demand_monthly : ℚ
  demand_multiplier : ℚ
  max_demand_monthly : ℚ
deriving DecidableEq

/-- The slice of `AppConfig` (config_models.py) that the generator reads. -/
structure AppConfig where
  markup_tiers : List MarkupTier
  demand_tiers : List DemandTier
deriving DecidableEq

/-- `estimate_retail_price(wholesale, app_config)` from `productcreator.py`: first
tier whose half-open bracket contains the price, else the last tier's multiplier.
(On an empty tier list the Python code would raise; that case is outside every
claim and is given the junk value 0 here.) -/
def estimate_retail_price (wholesale : ℚ) (cfg : AppConfig) : ℚ :=
  match cfg.markup_tiers.find?
      (fun t => decide (t.min_cost ≤ wholesale ∧ wholesale < t.max_cost)) with
  | some t => wholesale * t.markup_multiplier
  | none => wholesale * ((cfg.markup_tiers.getLast?).elim 0 MarkupTier.markup_multiplier)

/-- `get_demand_tier(price, app_config)` from `productcreator.py`. -/
def get_demand_tier (price : ℚ) (cfg : AppConfig) : Option DemandTier :=
  cfg.demand_tiers.find? (fun t => decide (t.min_price ≤ price ∧ price < t.max_price))

/-- `estimate_base_demand(wholesale, size_cm3, weight_kg, app_config)` from
`productcreator.py`; the third argument is in grams and converted to kg inside,
as in the source. -/
def estimate_base_demand (wholesale size_cm3 weight_g : ℚ) (cfg : AppConfig) : ℚ :=
  match get_demand_tier wholesale cfg with
  | none => 5
  | some tier =>
      let base0 := tier.base_demand_monthly * tier.demand_multiplier
      let base1 := if 20000 < size_cm3 then base0 * (1/2) else base0
      let base2 := if 20 < weight_g / 1000 then base1 * (7/10) else base1
      min (max 1 base2) tier.max_demand_monthly

/-- `GenerationParams` from `productcreator.py` (defaults as in the dataclass). -/
structure GenerationParams where
  price_min : ℚ := 1
  price_max : ℚ := 10000
  price_step : ℚ := 10
  weight_min : ℚ := 2
  weight_max : ℚ := 100000
  weight_step : ℚ := 2
  size_min : ℚ := 1
  size_max : ℚ := 50000
  size_step : ℚ := 50
  freight_min : ℚ := 1
  freight_max : ℚ := 5
  freight_step : ℚ := 1
  density_min : ℚ := 1/100
  density_max : ℚ := 10
  max_candidates : Option ℕ := none
deriving DecidableEq

/-- `ProductCandidate` from `productcreator.py`. -/
structure ProductCandidate where
  wholesale_price : ℚ
  retail_price : ℚ
  weight_g : ℚ
  size_cm3 : ℚ
  shipping_cost_multiplier : ℚ
  base_demand : ℚ
deriving DecidableEq

/-- The nested loop body of `generate_all_product_candidates`: cartesian product
of the four axis value lists, inline plausibility filter, derived retail price
and base demand per surviving combination, in enumeration order. -/
def rawCandidates (prices weights sizes shipping_costs : List ℚ)
    (params : GenerationParams) (cfg : AppConfig) : List ProductCandidate :=
  prices.flatMap (fun price =>
    weights.flatMap (fun weight =>
      sizes.flatMap (fun size =>
        shipping_costs.filterMap (fun shipping_mult =>
          if is_realistic_combination price weight size
              params.density_min params.density_max
          then some { wholesale_price := price,
                      retail_price := estimate_retail_price price cfg,
                      weight_g := weight,
                      size_cm3 := size,
                      shipping_cost_multiplier := shipping_mult,
                      base_demand := estimate_base_demand price size weight cfg }
          else none))))

/-- Stable descending comparison by profit potential
`(retail − wholesale) × base_demand`, as in the source's
`candidates.sort(key=..., reverse=True)`. -/
def profitDescLe (c1 c2 : ProductCandidate) : Bool :=
  decide ((c2.retail_price - c2.wholesale_price) * c2.base_demand ≤
    (c1.retail_price - c1.wholesale_price) * c1.base_demand)

/-- The `max_candidates` truncation of `generate_all_product_candidates`:
Python's `if params.max_candidates and len(candidates) > params.max_candidates`
guard (None and 0 are falsy), then stable sort by descending profit potential
and keep the top N. -/
def applyMaxCandidates (params : GenerationParams) (cands : List ProductCandidate) :
    List ProductCandidate :=
  match params.max_candidates with
  | some n => if n ≠ 0 ∧ n < cands.length then (cands.mergeSort profitDescLe).take n else cands
  | none => cands

/-- `generate_all_product_candidates(params, app_config)` from `productcreator.py`:
the four axis ranges, the filtered cartesian product, and the optional top-N
truncation. `none` when one of the four range loops does not finish within the
fuel. -/
def generate_all_product_candidates (fuel : ℕ) (params : GenerationParams)
    (cfg : AppConfig) : Option (List ProductCandidate) :=
  (generate_price_range fuel params.price_min params.price_max params.price_step).bind
    (fun prices =>
      (generate_weight_range fuel params.weight_min params.weight_max
          params.weight_step).bind
        (fun weights =>
          (generate_size_range fuel params.size_min params.size_max
              params.size_step).bind
            (fun sizes =>
              (generate_shipping_costs fuel params.freight_min params.freight_max
                  params.freight_step).map
                (fun shipping_costs =>
                  applyMaxCandidates params
                    (rawCandidates prices weights sizes shipping_costs params cfg)))))

lemma mem_of_applyMaxCandidates (params : GenerationParams)
    (cands : List ProductCandidate) (c : ProductCandidate)
    (hc : c ∈ applyMaxCandidates params cands) : c ∈ cands := by
  unfold applyMaxCandidates at hc
  split at hc
  · split at hc
    · exact List.mem_mergeSort.mp (List.take_subset _ _ hc)
    · exact hc
  · exact hc

lemma rawCandidates_base_demand (prices weights sizes shipping_costs : List ℚ)
    (params : GenerationParams) (cfg : AppConfig) (c : ProductCandidate)
    (hc : c ∈ rawCandidates prices weights sizes shipping_costs params cfg) :
    c.base_demand = estimate_base_demand c.wholesale_price c.size_cm3 c.weight_g cfg := by
  unfold rawCandidates at hc
  simp only [List.mem_flatMap, List.mem_filterMap] at hc
  obtain ⟨price, _, weight, _, size, _, sm, _, hval⟩ := hc
  split at hval
  · obtain rfl := Option.some_inj.mp hval
    rfl
  · exact absurd hval (by simp)

lemma estimate_base_demand_cases (wholesale size_cm3 weight_g : ℚ) (cfg : AppConfig)
    (hcap : ∀ t ∈ cfg.demand_tiers, 1 ≤ t.max_demand_monthly) :
    (∀ t, get_demand_tier wholesale cfg = some t →
      1 ≤ estimate_base_demand wholesale size_cm3 weight_g cfg ∧
      estimate_base_demand wholesale size_cm3 weight_g cfg ≤ t.max_demand_monthly ∧
      estimate_base_demand wholesale size_cm3 weight_g cfg =
        min (max 1 (t.base_demand_monthly * t.demand_multiplier *
          (if 20000 < size_cm3 then 1/2 else 1) *
          (if 20 < weight_g / 1000 then 7/10 else 1))) t.max_demand_monthly) ∧
    (get_demand_tier wholesale cfg = none →
      estimate_base_demand wholesale size_cm3 weight_g cfg = 5) := by
  constructor
  · intro t ht
    have htmem : t ∈ cfg.demand_tiers := List.mem_of_find?_eq_some ht
    unfold estimate_base_demand
    rw [ht]
    refine ⟨le_min (le_max_left 1 _) (hcap t htmem), min_le_right _ _, ?_⟩
    by_cases h1 : 20000 < size_cm3 <;> by_cases h2 : 20 < weight_g / 1000 <;>
      simp [h1, h2, mul_one]
  · intro hnone
    unfold estimate_base_demand
    rw [hnone]

/-- C8: every candidate produced by the generator whose wholesale price matches a
demand tier has `base_demand` clamped into [1, tier.max_demand_monthly], equal to
tier.base_demand_monthly × tier.demand_multiplier with the ×0.5 (size > 20,000 cm³)
and ×0.7 (weight > 20 kg) reductions applied before clamping; with no matching tier
the fallback base demand is 5. (The hypothesis that each tier's cap is ≥ 1 matches
the config loader, whose caps are the constants 500…20.) -/
theorem candidate_demand_cap (fuel : ℕ) (params : GenerationParams) (cfg : AppConfig)
    (cands : List ProductCandidate)
    (hgen : generate_all_product_candidates fuel params cfg = some cands)
    (hcap : ∀ t ∈ cfg.demand_tiers, 1 ≤ t.max_demand_monthly) :
    ∀ c ∈ cands,
      (∀ t, get_demand_tier c.wholesale_price cfg = some t →
        1 ≤ c.base_demand ∧ c.base_demand ≤ t.max_demand_monthly ∧
        c.base_demand = min (max 1 (t.base_demand_monthly * t.demand_multiplier *
          (if 20000 < c.size_cm3 then 1/2 else 1) *
          (if 20 < c.weight_g / 1000 then 7/10 else 1))) t.max_demand_monthly) ∧
      (get_demand_tier c.wholesale_price cfg = none → c.base_demand = 5) := by
  intro c hc
  unfold generate_all_product_candidates at hgen
  rw [Option.bind_eq_some] at hgen
  obtain ⟨prices, hP, hgen⟩ := hgen
  rw [Option.bind_eq_some] at hgen
  obtain ⟨weights, hW, hgen⟩ := hgen
  rw [Option.bind_eq_some] at hgen
  obtain ⟨sizes, hS, hgen⟩ := hgen
  rw [Option.map_eq_some'] at hgen
  obtain ⟨ships, hC, rfl⟩ := hgen
  have hraw : c ∈ rawCandidates prices weights sizes ships params cfg :=
    mem_of_applyMaxCandidates params _ c hc
  have hbd := rawCandidates_base_demand prices weights sizes ships params cfg c hraw
  rw [hbd]
  exact estimate_base_demand_cases c.wholesale_price c.size_cm3 c.weight_g cfg hcap

/-- A one-point generation parameter set used to exercise the generator. -/
def exParams : GenerationParams :=
  { price_min := 1, price_max := 1, price_step := 1,
    weight_min := 500, weight_max := 500, weight_step := 1,
    size_min := 1000, size_max := 1000, size_step := 1,
    freight_min := 1, freight_max := 1, freight_step := 1,
    density_min := 1/100, density_max := 10, max_candidates := none }

/-- A one-tier business-rule table used to exercise the generator. -/
def exAppConfig : AppConfig :=
  { markup_tiers := [⟨0, 50, 3⟩], demand_tiers := [⟨0, 50, 320, 1, 500⟩] }

/-- The single candidate generated from `exParams` and `exAppConfig`. -/
def exCandidate : ProductCandidate := ⟨1, 3, 500, 1000, 1, 320⟩

lemma exGenerate_eval :
    generate_all_product_candidates 2 exParams exAppConfig = some [exCandidate] := by
  have h1 : pyRound2 1 = 1 := pyRound2_of_hundredth 1 100 (by norm_num)
  have h500 : pyRound2 500 = 500 := pyRound2_of_hundredth 500 50000 (by norm_num)
  have h1000 : pyRound2 1000 = 1000 := pyRound2_of_hundredth 1000 100000 (by norm_num)
  have hp : generate_price_range 2 1 1 1 = some [1] := by
    norm_num [generate_price_range, genRangeFuel, h1]
  have hw : generate_weight_range 2 500 500 1 = some [500] := by
    norm_num [generate_weight_range, genRangeFuel, h500]
  have hs : generate_size_range 2 1000 1000 1 = some [1000] := by
    norm_num [generate_size_range, genRangeFuel, h1000]
  have hc : generate_shipping_costs 2 1 1 1 = some [1] := by
    norm_num [generate_shipping_costs, genRangeFuel, h1]
  have hreal : is_realistic_combination 1 500 1000 ((100 : ℚ)⁻¹) 10 = true := by
    norm_num [is_realistic_combination, densityOf, valuePerKg, heuristicRules]
  have hretail : estimate_retail_price 1 exAppConfig = 3 := by
    norm_num [estimate_retail_price, exAppConfig, List.find?]
  have hdemand : estimate_base_demand 1 1000 500 exAppConfig = 320 := by
    norm_num [estimate_base_demand, get_demand_tier, exAppConfig, List.find?]
  unfold generate_all_product_candidates
  simp [exParams, hp, hw, hs, hc, rawCandidates, applyMaxCandidates, hreal, hretail,
    hdemand, exCandidate]

theorem candidate_demand_cap_witness :
    (generate_all_product_candidates 2 exParams exAppConfig = some [exCandidate]) ∧
    (∀ t ∈ exAppConfig.demand_tiers, 1 ≤ t.max_demand_monthly) ∧
    ((∀ t, get_demand_tier exCandidate.wholesale_price exAppConfig = some t →
      1 ≤ exCandidate.base_demand ∧ exCandidate.base_demand ≤ t.max_demand_monthly ∧
      exCandidate.base_demand =
        min (max 1 (t.base_demand_monthly * t.demand_multiplier *
          (if 20000 < exCandidate.size_cm3 then 1/2 else 1) *
          (if 20 < exCandidate.weight_g / 1000 then 7/10 else 1))) t.max_demand_monthly) ∧
      (get_demand_tier exCandidate.wholesale_price exAppConfig = none →
        exCandidate.base_demand = 5)) := by
  have hcap : ∀ t ∈ exAppConfig.demand_tiers, 1 ≤ t.max_demand_monthly := by
    intro t ht
    simp only [exAppConfig, List.mem_singleton] at ht
    rw [ht]
    norm_num
  exact ⟨exGenerate_eval, hcap,
    candidate_demand_cap 2 exParams exAppConfig [exCandidate] exGenerate_eval hcap
      exCandidate (by simp)⟩

/-- C9: the plausibility filter is monotone in the density window — a combination
rejected for a window [dmin, dmax] stays rejected for every narrower window
[dmin2, dmax2] with dmin ≤ dmin2 and dmax2 ≤ dmax. -/
theorem is_realistic_monotone (price weight_g size_cm3 dmin dmax dmin2 dmax2 : ℚ)
    (h1 : dmin ≤ dmin2) (h2 : dmax2 ≤ dmax)
    (hfalse : is_realistic_combination price weight_g size_cm3 dmin dmax = false) :
    is_realistic_combination price weight_g size_cm3 dmin2 dmax2 = false := by
  unfold is_realistic_combination at hfalse ⊢
  by_cases hd : densityOf weight_g size_cm3 < dmin2 ∨ dmax2 < densityOf weight_g size_cm3
  · rw [if_pos hd]
  · rw [if_neg hd]
    push_neg at hd
    have hin : ¬ (densityOf weight_g size_cm3 < dmin ∨ dmax < densityOf weight_g size_cm3) := by
      push_neg
      exact ⟨le_trans h1 hd.1, le_trans hd.2 h2⟩
    rwa [if_neg hin] at hfalse

theorem is_realistic_monotone_witness :
    ((1/100 : ℚ) ≤ 1/50) ∧ ((5 : ℚ) ≤ 10) ∧
      (is_realistic_combination 1 2 50000 (1/100) 10 = false) ∧
      (is_realistic_combination 1 2 50000 (1/50) 5 = false) := by
  have hbase : is_realistic_combination 1 2 50000 (1/100) 10 = false := by
    unfold is_realistic_combination
    rw [if_pos (Or.inl (by norm_num [densityOf] : densityOf 2 50000 < 1/100))]
  exact ⟨by norm_num, by norm_num, hbase,
    is_realistic_monotone 1 2 50000 (1/100) 10 (1/50) 5 (by norm_num) (by norm_num) hbase⟩

/-- C10: the plausibility filter is total on degenerate inputs — a size ≤ 0 makes
the computed density 0 instead of dividing by zero, a weight of 0 makes the
value-per-kg 0 instead of dividing by zero, and the filter returns a boolean for
every rational price, weight and size. -/
theorem is_realistic_total (price weight_g size_cm3 dmin dmax : ℚ) :
    (size_cm3 ≤ 0 → densityOf weight_g size_cm3 = 0) ∧
    (weight_g = 0 → valuePerKg price weight_g = 0) ∧
    (is_realistic_combination price weight_g size_cm3 dmin dmax = true ∨
      is_realistic_combination price weight_g size_cm3 dmin dmax = false) := by
  refine ⟨?_, ?_, ?_⟩
  · intro hs
    unfold densityOf
    rw [if_neg]
    intro h
    linarith
  · intro hw
    unfold valuePerKg
    rw [hw]
    norm_num
  · cases hb : is_realistic_combination price weight_g size_cm3 dmin dmax
    · exact Or.inr rfl
    · exact Or.inl rfl

theorem is_realistic_total_witness :
    densityOf 0 (-1) = 0 ∧ valuePerKg 7 0 = 0 ∧
      (is_realistic_combination 7 0 (-1) (1/100) 10 = true ∨
        is_realistic_combination 7 0 (-1) (1/100) 10 = false) :=
  ⟨(is_realistic_total 7 0 (-1) (1/100) 10).1 (by norm_num),
    (is_realistic_total 7 0 (-1) (1/100) 10).2.1 rfl,
    (is_realistic_total 7 0 (-1) (1/100) 10).2.2⟩

/-- `SeasonalFactors` from `spcplan.py`: month → multiplier, default 1.0 when the
month is not in the table. -/
structure SeasonalFactors where
  factors : List (ℕ × ℚ)
deriving DecidableEq

/-- `SeasonalFactors.get(month)`: `self.factors.get(month, 1.0)`. -/
def SeasonalFactors.get (sf : SeasonalFactors) (month : ℕ) : ℚ :=
  (sf.factors.lookup month).getD 1

/-- The default seasonal factor table of `spcplan.py`. -/
def defaultSeasonalFactors : SeasonalFactors :=
  ⟨[(1, 4/5), (2, 7/10), (3, 9/10), (4, 19/20), (5, 1), (6, 1), (7, 21/20), (8, 11/10),
    (9, 23/20), (10, 13/10), (11, 3/2), (12, 8/5)]⟩

/-- `DemandForecast` from `spcplan.py` (defaults as in the dataclass). -/
structure DemandForecast where
  base_demand : ℚ
  seasonal_factors : SeasonalFactors
  trend_factor : ℚ := 51/50
  demand_buffer : ℚ := 3/2
deriving DecidableEq

/-- `DemandForecast.forecast_month(month)`:
base_demand × seasonal(month) × trend_factor^(month − 1). -/
def DemandForecast.forecast_month (df : DemandForecast) (month : ℕ) : ℚ :=
  df.base_demand * df.seasonal_factors.get month * df.trend_factor ^ (month - 1)

/-- `Product` from `spcplan.py`. -/
structure Product where
  id : String
  name : String
  wholesale_price : ℚ
  retail_price : ℚ
  size_cm3 : ℚ
  weight_g : ℚ
  category : String
  demand_forecast : DemandForecast
  bulk_discount_threshold : ℕ := 0
  bulk_discount_rate : ℚ := 0
deriving DecidableEq

/-- `Product.margin`: retail_price − wholesale_price. -/
def Product.margin (p : Product) : ℚ := p.retail_price - p.wholesale_price

/-- `ShippingOption` from `spcplan.py`. -/
structure ShippingOption where
  name : String
  cost_per_kg : ℚ
  cost_per_m3 : ℚ
  max_weight_kg : ℚ
  max_volume_m3 : ℚ
  crosses_border : Bool
  customs_duty_rate : ℚ
  days_transit : ℕ
deriving DecidableEq

/-- `OptimizerConfig` from `spcplan.py` (defaults as in the dataclass). -/
structure OptimizerConfig where
  planning_months : ℕ
  budget_per_month : ℚ
  warehouse_capacity_m3 : ℚ
  shipping : ShippingOption
  solver_time_limit_seconds : ℕ := 300
  solver_type : String := "SCIP"
  demand_multiplier : ℚ := 1
deriving DecidableEq

/-- The month loop `range(1, planning_months + 1)` used throughout the optimizer. -/
def monthsRange (cfg : OptimizerConfig) : List ℕ := List.range' 1 cfg.planning_months

/-- One integer decision variable as created by `solver.IntVar(lb, ub, name)`. -/
structure IntVarSpec where
  lb : ℤ
  ub : ℤ
  name : String
deriving DecidableEq

/-- `_create_variables` from `spcplan.py`: for every product and month 1..planning_months,
an integer variable 0 .. int(forecast(month) × demand_multiplier × demand_buffer)
named `q_{id}_m{month}`. -/
def create_variables (cfg : OptimizerConfig) (products : List Product) :
    List (String × ℕ × IntVarSpec) :=
  products.flatMap (fun p =>
    (monthsRange cfg).map (fun month =>
      (p.id, month,
        ⟨0, pyInt (p.demand_forecast.forecast_month month * cfg.demand_multiplier *
            p.demand_forecast.demand_buffer),
          "q_" ++ p.id ++ "_m" ++ toString month⟩)))

/-- C4: for every product and month in the planning horizon, the decision
variable created by the optimizer has upper bound
⌊forecast(month) × demand_multiplier × demand_buffer⌋ (the demand parameters
being nonnegative), and the forecast itself is
base_demand × seasonal(month) × trend_factor^(month−1) — the buffer never enters
the forecast. -/
theorem variable_upper_bound (cfg : OptimizerConfig) (products : List Product)
    (p : Product) (month : ℕ) (hp : p ∈ products) (hm : month ∈ monthsRange cfg)
    (hb : 0 ≤ p.demand_forecast.base_demand)
    (hs : 0 ≤ p.demand_forecast.seasonal_factors.get month)
    (ht : 0 ≤ p.demand_forecast.trend_factor)
    (hmul : 0 ≤ cfg.demand_multiplier)
    (hbuf : 0 ≤ p.demand_forecast.demand_buffer) :
    (p.id, month, IntVarSpec.mk 0
        ⌊p.demand_forecast.forecast_month month * cfg.demand_multiplier *
          p.demand_forecast.demand_buffer⌋
        ("q_" ++ p.id ++ "_m" ++ toString month)) ∈ create_variables cfg products ∧
      p.demand_forecast.forecast_month month =
        p.demand_forecast.base_demand * p.demand_forecast.seasonal_factors.get month *
          p.demand_forecast.trend_factor ^ (month - 1) := by
  constructor
  · have hnn : 0 ≤ p.demand_forecast.forecast_month month * cfg.demand_multiplier *
        p.demand_forecast.demand_buffer := by
      unfold DemandForecast.forecast_month
      have htp : 0 ≤ p.demand_forecast.trend_factor ^ (month - 1) := pow_nonneg ht _
      exact mul_nonneg (mul_nonneg (mul_nonneg (mul_nonneg hb hs) htp) hmul) hbuf
    have hpy : pyInt (p.demand_forecast.forecast_month month * cfg.demand_multiplier *
        p.demand_forecast.demand_buffer) =
        ⌊p.demand_forecast.forecast_month month * cfg.demand_multiplier *
          p.demand_forecast.demand_buffer⌋ := by
      unfold pyInt
      rw [if_pos hnn]
    unfold create_variables
    rw [List.mem_flatMap]
    refine ⟨p, hp, ?_⟩
    rw [List.mem_map]
    exact ⟨month, hm, by rw [← hpy]⟩
  · rfl

/-- One linear ≤-constraint handed to the solver: a list of
(coefficient, product id, month) terms and an upper bound. -/
structure LinConstraint where
  terms : List (ℚ × String × ℕ)
  ub : ℚ

/-- Value of a linear term list under a quantity assignment q[id][month]. -/
def evalTerms (q : String → ℕ → ℚ) (ts : List (ℚ × String × ℕ)) : ℚ :=
  (ts.map (fun t => t.1 * q t.2.1 t.2.2)).sum

/-- Satisfaction of one linear constraint. -/
def constraintHolds (q : String → ℕ → ℚ) (c : LinConstraint) : Prop :=
  evalTerms q c.terms ≤ c.ub

/-- `_create_constraints` from `spcplan.py`, in source order: one budget
constraint per month, a single warehouse-capacity constraint summing volume over
all months and products, then per-month shipping weight and shipping volume
constraints. -/
def create_constraints (cfg : OptimizerConfig) (products : List Product) :
    List LinConstraint :=
  ((monthsRange cfg).map (fun month =>
      LinConstraint.mk (products.map (fun p => (p.wholesale_price, p.id, month)))
        cfg.budget_per_month))
  ++ [LinConstraint.mk
        (products.flatMap (fun p =>
          (monthsRange cfg).map (fun month => (p.size_cm3 / 1000000, p.id, month))))
        cfg.warehouse_capacity_m3]
  ++ ((monthsRange cfg).map (fun month =>
      LinConstraint.mk (products.map (fun p => (p.weight_g / 1000, p.id, month)))
        cfg.shipping.max_weight_kg))
  ++ ((monthsRange cfg).map (fun month =>
      LinConstraint.mk (products.map (fun p => (p.size_cm3 / 1000000, p.id, month)))
        cfg.shipping.max_volume_m3))

/-- Following the spec's words (§4.3): budget Σ_products wholesale×qty ≤ budget
per month; warehouse Σ_months Σ_products volume×qty ≤ capacity once over the
horizon; shipping Σ_products weight×qty ≤ max_weight and Σ_products volume×qty ≤
max_volume per month. Stated directly as a satisfaction predicate, to be compared
with the constraint list built by the code. -/
def specConstraintSystem (cfg : OptimizerConfig) (products : List Product)
    (q : String → ℕ → ℚ) : Prop :=
  (∀ month ∈ monthsRange cfg,
    (products.map (fun p => p.wholesale_price * q p.id month)).sum ≤
      cfg.budget_per_month) ∧
  (((monthsRange cfg).map (fun month =>
      (products.map (fun p => p.size_cm3 / 1000000 * q p.id month)).sum)).sum ≤
    cfg.warehouse_capacity_m3) ∧
  (∀ month ∈ monthsRange cfg,
    (products.map (fun p => p.weight_g / 1000 * q p.id month)).sum ≤
      cfg.shipping.max_weight_kg) ∧
  (∀ month ∈ monthsRange cfg,
    (products.map (fun p => p.size_cm3 / 1000000 * q p.id month)).sum ≤
      cfg.shipping.max_volume_m3)

lemma evalTerms_map_products (q : String → ℕ → ℚ) (products : List Product)
    (coef : Product → ℚ) (month : ℕ) :
    evalTerms q (products.map (fun p => (coef p, p.id, month))) =
      (products.map (fun p => coef p * q p.id month)).sum := by
  unfold evalTerms
  rw [List.map_map]
  rfl

lemma sum_flatMap_rat {α : Type} (l : List α) (f : α → List ℚ) :
    (l.flatMap f).sum = (l.map (fun a => (f a).sum)).sum := by
  induction l with
  | nil => simp
  | cons a as ih => simp [List.flatMap_cons, List.sum_append, ih]

lemma sum_sum_swap {α β : Type} (l1 : List α) (l2 : List β) (f : α → β → ℚ) :
    (l1.map (fun a => (l2.map (fun b => f a b)).sum)).sum =
      (l2.map (fun b => (l1.map (fun a => f a b)).sum)).sum := by
  induction l1 with
  | nil => simp
  | cons a as ih =>
      simp only [List.map_cons, List.sum_cons, ih, ← List.sum_map_add]

lemma evalTerms_warehouse (q : String → ℕ → ℚ) (products : List Product)
    (months : List ℕ) (coef : Product → ℚ) :
    evalTerms q (products.flatMap (fun p =>
        months.map (fun month => (coef p, p.id, month)))) =
      (months.map (fun month =>
        (products.map (fun p => coef p * q p.id month)).sum)).sum := by
  unfold evalTerms
  rw [List.map_flatMap, sum_flatMap_rat]
  rw [show (fun p : Product => ((months.map fun month => (coef p, p.id, month)).map
      (fun t : ℚ × String × ℕ => t.1 * q t.2.1 t.2.2)).sum) =
      (fun p : Product => (months.map (fun month => coef p * q p.id month)).sum) from ?_]
  · exact sum_sum_swap products months (fun p month => coef p * q p.id month)
  · funext p
    rw [List.map_map]
    rfl

/-- C3: the constraint set built by the optimizer is exactly the spec's system —
it has 3×planning_months + 1 constraints, and an assignment satisfies all of
them if and only if it satisfies every per-month budget constraint, the single
cumulative warehouse constraint, and the per-month shipping weight and volume
constraints. -/
theorem constraints_exactly_spec (cfg : OptimizerConfig) (products : List Product)
    (q : String → ℕ → ℚ) :
    ((create_constraints cfg products).length = 3 * cfg.planning_months + 1) ∧
    ((∀ c ∈ create_constraints cfg products, constraintHolds q c) ↔
      specConstraintSystem cfg products q) := by
  constructor
  · simp only [create_constraints, List.length_append, List.length_map,
      List.length_singleton, monthsRange, List.length_range']
    omega
  · constructor
    · intro h
      refine ⟨?_, ?_, ?_, ?_⟩
      · intro m hm
        have hin := h (LinConstraint.mk
            (products.map (fun p => (p.wholesale_price, p.id, m))) cfg.budget_per_month)
          (by
            unfold create_constraints
            simp only [List.mem_append, List.mem_map]
            exact Or.inl (Or.inl (Or.inl ⟨m, hm, rfl⟩)))
        unfold constraintHolds at hin
        rwa [evalTerms_map_products] at hin
      · have hin := h (LinConstraint.mk
            (products.flatMap (fun p =>
              (monthsRange cfg).map (fun month => (p.size_cm3 / 1000000, p.id, month))))
            cfg.warehouse_capacity_m3)
          (by
            unfold create_constraints
            simp only [List.mem_append]
            exact Or.inl (Or.inl (Or.inr (List.mem_singleton.mpr rfl))))
        unfold constraintHolds at hin
        rwa [evalTerms_warehouse] at hin
      · intro m hm
        have hin := h (LinConstraint.mk
            (products.map (fun p => (p.weight_g / 1000, p.id, m)))
            cfg.shipping.max_weight_kg)
          (by
            unfold create_constraints
            simp only [List.mem_append, List.mem_map]
            exact Or.inl (Or.inr ⟨m, hm, rfl⟩))
        unfold constraintHolds at hin
        rwa [evalTerms_map_products] at hin
      · intro m hm
        have hin := h (LinConstraint.mk
            (products.map (fun p => (p.size_cm3 / 1000000, p.id, m)))
            cfg.shipping.max_volume_m3)
          (by
            unfold create_constraints
            simp only [List.mem_append, List.mem_map]
            exact Or.inr ⟨m, hm, rfl⟩)
        unfold constraintHolds at hin
        rwa [evalTerms_map_products] at hin
    · rintro ⟨hb, hwh, hwt, hv⟩ c hc
      unfold create_constraints at hc
      simp only [List.mem_append, List.mem_map, List.mem_singleton] at hc
      rcases hc with ((⟨m, hm, rfl⟩ | rfl) | ⟨m, hm, rfl⟩) | ⟨m, hm, rfl⟩
      · unfold constraintHolds
        rw [evalTerms_map_products]
        exact hb m hm
      · unfold constraintHolds
        rw [evalTerms_warehouse]
        exact hwh
      · unfold constraintHolds
        rw [evalTerms_map_products]
        exact hwt m hm
      · unfold constraintHolds
        rw [evalTerms_map_products]
        exact hv m hm

/-- A concrete demand forecast (the end-to-end scenario of the spec, base 100). -/
def exForecast : DemandForecast :=
  { base_demand := 100, seasonal_factors := defaultSeasonalFactors }

/-- A concrete product used to exercise the optimizer embedding. -/
def exProduct : Product :=
  { id := "P1", name := "Widget", wholesale_price := 10, retail_price := 20,
    size_cm3 := 1000, weight_g := 500, category := "general",
    demand_forecast := exForecast }

/-- A concrete shipping profile used to exercise the optimizer embedding. -/
def exShipping : ShippingOption :=
  { name := "standard", cost_per_kg := 2, cost_per_m3 := 50, max_weight_kg := 1000,
    max_volume_m3 := 10, crosses_border := false, customs_duty_rate := 0,
    days_transit := 3 }

/-- A concrete optimizer configuration used to exercise the optimizer embedding. -/
def exOptConfig : OptimizerConfig :=
  { planning_months := 2, budget_per_month := 1000, warehouse_capacity_m3 := 10,
    shipping := exShipping }

theorem variable_upper_bound_witness :
    (exProduct ∈ [exProduct]) ∧ (2 ∈ monthsRange exOptConfig) ∧
      (0 ≤ exProduct.demand_forecast.base_demand) ∧
      (0 ≤ exProduct.demand_forecast.seasonal_factors.get 2) ∧
      (0 ≤ exProduct.demand_forecast.trend_factor) ∧
      (0 ≤ exOptConfig.demand_multiplier) ∧
      (0 ≤ exProduct.demand_forecast.demand_buffer) ∧
      ((exProduct.id, 2, IntVarSpec.mk 0
          ⌊exProduct.demand_forecast.forecast_month 2 * exOptConfig.demand_multiplier *
            exProduct.demand_forecast.demand_buffer⌋
          ("q_" ++ exProduct.id ++ "_m" ++ toString 2)) ∈
            create_variables exOptConfig [exProduct] ∧
        exProduct.demand_forecast.forecast_month 2 =
          exProduct.demand_forecast.base_demand *
            exProduct.demand_forecast.seasonal_factors.get 2 *
            exProduct.demand_forecast.trend_factor ^ (2 - 1)) := by
  have hp : exProduct ∈ [exProduct] := List.mem_singleton.mpr rfl
  have hm : 2 ∈ monthsRange exOptConfig := by
    simp [monthsRange, exOptConfig, List.range']
  have hb : (0 : ℚ) ≤ exProduct.demand_forecast.base_demand := by
    norm_num [exProduct, exForecast]
  have hs : (0 : ℚ) ≤ exProduct.demand_forecast.seasonal_factors.get 2 := by
    have hget : exProduct.demand_forecast.seasonal_factors.get 2 = 7/10 := by
      simp [exProduct, exForecast, defaultSeasonalFactors, SeasonalFactors.get, List.lookup]
    rw [hget]
    norm_num
  have ht : (0 : ℚ) ≤ exProduct.demand_forecast.trend_factor := by
    norm_num [exProduct, exForecast]
  have hmul : (0 : ℚ) ≤ exOptConfig.demand_multiplier := by
    norm_num [exOptConfig]
  have hbuf : (0 : ℚ) ≤ exProduct.demand_forecast.demand_buffer := by
    norm_num [exProduct, exForecast]
  exact ⟨hp, hm, hb, hs, ht, hmul, hbuf,
    variable_upper_bound exOptConfig [exProduct] exProduct 2 hp hm hb hs ht hmul hbuf⟩

/-- Result status strings of `spcplan.py`. -/
inductive RStatus
  | OPTIMAL
  | FEASIBLE
  | INFEASIBLE
  | ERROR
deriving DecidableEq

/-- Raw outcome codes of the external `pywraplp` solver. -/
inductive SolverRawStatus
  | OPTIMAL
  | FEASIBLE
  | INFEASIBLE
  | UNBOUNDED
  | ABNORMAL
  | NOT_SOLVED
deriving DecidableEq

/-- The three-way classification at the top of `_extract_results`:
OPTIMAL and FEASIBLE pass through, everything else becomes INFEASIBLE. -/
def classifyStatus (raw : SolverRawStatus) : RStatus :=
  match raw with
  | .OPTIMAL => RStatus.OPTIMAL
  | .FEASIBLE => RStatus.FEASIBLE
  | _ => RStatus.INFEASIBLE

/-- One `purchase_orders[month][product_id]` entry of `_extract_results`. -/
structure OrderEntry where
  name : String
  quantity : ℤ
  unit_wholesale : ℚ
  total_cost : ℚ
  unit_retail : ℚ
  total_revenue : ℚ
  margin : ℚ
  weight_kg : ℚ
  volume_m3 : ℚ
deriving DecidableEq

/-- One `monthly_breakdown[month]` entry of `_extract_results`. -/
structure MonthBreakdown where
  product_cost : ℚ
  product_revenue : ℚ
  gross_margin : ℚ
  weight_shipping : ℚ
  volume_shipping : ℚ
  customs_duty : ℚ
  total_costs : ℚ
  net_profit : ℚ
  weight_kg : ℚ
  volume_m3 : ℚ
  items_ordered : ℕ
deriving DecidableEq

/-- One `product_totals[product_id]` entry of `_extract_results`. -/
structure ProductTotalsEntry where
  name : String
  total_quantity : ℤ
  total_cost : ℚ
  total_revenue : ℚ
  total_margin : ℚ
deriving DecidableEq

/-- The dictionary returned by `_extract_results`. -/
structure ResultDict where
  status : RStatus
  objective_value : ℚ
  purchase_orders : List (ℕ × List (String × OrderEntry))
  monthly_breakdown : List (ℕ × MonthBreakdown)
  product_totals : List (String × ProductTotalsEntry)
deriving DecidableEq

/-- The raw solver answer: objective value and one float per variable, read back
through `solution_value()`. -/
structure Solution where
  objective : ℚ
  value : String → ℕ → ℚ

/-- The `purchase_orders` entry built for one product with a given (already
truncated) quantity: unit costs, revenue, margin, weight and volume. -/
def mkOrderEntry (p : Product) (qty : ℤ) : OrderEntry :=
  { name := p.name,
    quantity := qty,
    unit_wholesale := p.wholesale_price,
    total_cost := p.wholesale_price * (qty : ℚ),
    unit_retail := p.retail_price,
    total_revenue := p.retail_price * (qty : ℚ),
    margin := p.retail_price * (qty : ℚ) - p.wholesale_price * (qty : ℚ),
    weight_kg := p.weight_g / 1000 * (qty : ℚ),
    volume_m3 := p.size_cm3 / 1000000 * (qty : ℚ) }

/-- The per-month `purchase_orders` loop of `_extract_results`: quantity is
`int(solution_value())` — truncation toward zero — and a product is recorded
only when that quantity is > 0. -/
def monthOrders (products : List Product) (sol : Solution) (month : ℕ) :
    List (String × OrderEntry) :=
  products.filterMap (fun p =>
    if 0 < pyInt (sol.value p.id month) then
      some (p.id, mkOrderEntry p (pyInt (sol.value p.id month)))
    else none)

/-- The `monthly_breakdown[month]` computation of `_extract_results`, recomputed
from the realized entries of the month. -/
def monthBreakdownOf (cfg : OptimizerConfig) (entries : List (String × OrderEntry)) :
    MonthBreakdown :=
  let month_cost := (entries.map (fun e => e.2.total_cost)).sum
  let month_revenue := (entries.map (fun e => e.2.total_revenue)).sum
  let month_weight := (entries.map (fun e => e.2.weight_kg)).sum
  let month_volume := (entries.map (fun e => e.2.volume_m3)).sum
  let weight_shipping := cfg.shipping.cost_per_kg * month_weight
  let volume_shipping := cfg.shipping.cost_per_m3 * month_volume
  let customs := if cfg.shipping.crosses_border
    then cfg.shipping.customs_duty_rate * month_cost else 0
  { product_cost := month_cost,
    product_revenue := month_revenue,
    gross_margin := month_revenue - month_cost,
    weight_shipping := weight_shipping,
    volume_shipping := volume_shipping,
    customs_duty := customs,
    total_costs := month_cost + weight_shipping + volume_shipping + customs,
    net_profit := month_revenue - month_cost - weight_shipping - volume_shipping - customs,
    weight_kg := month_weight,
    volume_m3 := month_volume,
    items_ordered := entries.length }

/-- The `product_totals` loop of `_extract_results`: per-product totals over all
months, kept only when the total quantity is positive. -/
def productTotalsOf (cfg : OptimizerConfig) (products : List Product) (sol : Solution) :
    List (String × ProductTotalsEntry) :=
  products.filterMap (fun p =>
    let perMonth := (monthsRange cfg).filterMap
      (fun month => (monthOrders products sol month).lookup p.id)
    let total_qty := (perMonth.map (fun o => o.quantity)).sum
    let total_cost := (perMonth.map (fun o => o.total_cost)).sum
    let total_revenue := (perMonth.map (fun o => o.total_revenue)).sum
    if 0 < total_qty then
      some (p.id,
        { name := p.name,
          total_quantity := total_qty,
          total_cost := total_cost,
          total_revenue := total_revenue,
          total_margin := total_revenue - total_cost })
    else none)

/-- `_extract_results` from `spcplan.py`: classify the raw solver status; on
OPTIMAL/FEASIBLE fill purchase orders, monthly breakdown and product totals from
the solution; otherwise leave objective 0 and all three collections empty. -/
def extract_results (cfg : OptimizerConfig) (products : List Product) (sol : Solution)
    (raw : SolverRawStatus) : ResultDict :=
  let status := classifyStatus raw
  if status = RStatus.OPTIMAL ∨ status = RStatus.FEASIBLE then
    { status := status,
      objective_value := sol.objective,
      purchase_orders := (monthsRange cfg).map
        (fun month => (month, monthOrders products sol month)),
      monthly_breakdown := (monthsRange cfg).map
        (fun month => (month, monthBreakdownOf cfg (monthOrders products sol month))),
      product_totals := productTotalsOf cfg products sol }
  else
    { status := status,
      objective_value := 0,
      purchase_orders := [],
      monthly_breakdown := [],
      product_totals := [] }

/-- A concrete solver answer whose variable values are the exact integer 100. -/
def exSol : Solution := { objective := 895, value := fun _ _ => 100 }

/-- A concrete solver answer returning the near-integer 5 − 10⁻⁶ for every
variable, as a solver with floating tolerance may. -/
def exSolNearInt : Solution := { objective := 0, value := fun _ _ => 4999999/1000000 }

/-- C6: result extraction classifies every raw solver outcome into exactly one of
OPTIMAL / FEASIBLE / INFEASIBLE / ERROR (OPTIMAL and FEASIBLE map to themselves,
every other outcome to INFEASIBLE), and whenever the resulting status is not
OPTIMAL or FEASIBLE the result carries the safe empty defaults: objective 0 and
empty purchase_orders, monthly_breakdown and product_totals. -/
theorem extract_results_classification (cfg : OptimizerConfig) (products : List Product)
    (sol : Solution) (raw : SolverRawStatus) :
    ((extract_results cfg products sol raw).status = RStatus.OPTIMAL ∨
      (extract_results cfg products sol raw).status = RStatus.FEASIBLE ∨
      (extract_results cfg products sol raw).status = RStatus.INFEASIBLE ∨
      (extract_results cfg products sol raw).status = RStatus.ERROR) ∧
    (raw = SolverRawStatus.OPTIMAL →
      (extract_results cfg products sol raw).status = RStatus.OPTIMAL) ∧
    (raw = SolverRawStatus.FEASIBLE →
      (extract_results cfg products sol raw).status = RStatus.FEASIBLE) ∧
    (raw ≠ SolverRawStatus.OPTIMAL → raw ≠ SolverRawStatus.FEASIBLE →
      (extract_results cfg products sol raw).status = RStatus.INFEASIBLE) ∧
    ((extract_results cfg products sol raw).status ≠ RStatus.OPTIMAL →
      (extract_results cfg products sol raw).status ≠ RStatus.FEASIBLE →
      (extract_results cfg products sol raw).objective_value = 0 ∧
      (extract_results cfg products sol raw).purchase_orders = [] ∧
      (extract_results cfg products sol raw).monthly_breakdown = [] ∧
      (extract_results cfg products sol raw).product_totals = []) := by
  cases raw <;> simp [extract_results, classifyStatus]

theorem extract_results_classification_witness :
    ((extract_results exOptConfig [exProduct] exSol SolverRawStatus.UNBOUNDED).status =
      RStatus.INFEASIBLE) ∧
    ((extract_results exOptConfig [exProduct] exSol
        SolverRawStatus.UNBOUNDED).objective_value = 0 ∧
      (extract_results exOptConfig [exProduct] exSol
        SolverRawStatus.UNBOUNDED).purchase_orders = [] ∧
      (extract_results exOptConfig [exProduct] exSol
        SolverRawStatus.UNBOUNDED).monthly_breakdown = [] ∧
      (extract_results exOptConfig [exProduct] exSol
        SolverRawStatus.UNBOUNDED).product_totals = []) := by
  have h := extract_results_classification exOptConfig [exProduct] exSol
    SolverRawStatus.UNBOUNDED
  have h1 := h.2.2.2.1 (by simp) (by simp)
  exact ⟨h1, h.2.2.2.2 (by rw [h1]; simp) (by rw [h1]; simp)⟩

/-- C1 (amended): on OPTIMAL or FEASIBLE, result extraction reads back each
decision variable through Python's `int()`, i.e. truncation toward zero (NOT
round to nearest), and a month's purchase_orders record exactly the products
whose truncated quantity is > 0, with unit costs, revenue, margin, weight and
volume computed from that quantity. -/
theorem extract_orders_truncation (cfg : OptimizerConfig) (products : List Product)
    (sol : Solution) (raw : SolverRawStatus)
    (hraw : raw = SolverRawStatus.OPTIMAL ∨ raw = SolverRawStatus.FEASIBLE) :
    ∀ month ∈ monthsRange cfg,
      ((month, monthOrders products sol month) ∈
        (extract_results cfg products sol raw).purchase_orders) ∧
      (∀ e ∈ monthOrders products sol month, ∃ p ∈ products,
        e.1 = p.id ∧
        e.2.quantity = pyInt (sol.value p.id month) ∧ 0 < e.2.quantity ∧
        e.2.name = p.name ∧
        e.2.unit_wholesale = p.wholesale_price ∧
        e.2.total_cost = p.wholesale_price * (e.2.quantity : ℚ) ∧
        e.2.unit_retail = p.retail_price ∧
        e.2.total_revenue = p.retail_price * (e.2.quantity : ℚ) ∧
        e.2.margin = e.2.total_revenue - e.2.total_cost ∧
        e.2.weight_kg = p.weight_g / 1000 * (e.2.quantity : ℚ) ∧
        e.2.volume_m3 = p.size_cm3 / 1000000 * (e.2.quantity : ℚ)) ∧
      (∀ p ∈ products, 0 < pyInt (sol.value p.id month) →
        ∃ e, (p.id, e) ∈ monthOrders products sol month ∧
          e.quantity = pyInt (sol.value p.id month)) := by
  intro month hm
  refine ⟨?_, ?_, ?_⟩
  · unfold extract_results
    rcases hraw with rfl | rfl <;>
      · rw [if_pos (by simp [classifyStatus])]
        simp only [List.mem_map]
        exact ⟨month, hm, rfl⟩
  · intro e he
    unfold monthOrders at he
    rw [List.mem_filterMap] at he
    obtain ⟨p, hp, hval⟩ := he
    refine ⟨p, hp, ?_⟩
    split at hval
    · obtain rfl := Option.some_inj.mp hval
      refine ⟨rfl, rfl, by assumption, rfl, rfl, rfl, rfl, rfl, ?_, rfl, rfl⟩
      simp [mkOrderEntry]
    · exact absurd hval (by simp)
  · intro p hp hpos
    refine ⟨mkOrderEntry p (pyInt (sol.value p.id month)), ?_, rfl⟩
    unfold monthOrders
    rw [List.mem_filterMap]
    exact ⟨p, hp, by rw [if_pos hpos]⟩

theorem extract_orders_truncation_witness :
    (SolverRawStatus.OPTIMAL = SolverRawStatus.OPTIMAL ∨
      SolverRawStatus.OPTIMAL = SolverRawStatus.FEASIBLE) ∧
    (1 ∈ monthsRange exOptConfig) ∧
    (((1, monthOrders [exProduct] exSol 1) ∈
        (extract_results exOptConfig [exProduct] exSol
          SolverRawStatus.OPTIMAL).purchase_orders) ∧
      (∀ e ∈ monthOrders [exProduct] exSol 1, ∃ p ∈ [exProduct],
        e.1 = p.id ∧
        e.2.quantity = pyInt (exSol.value p.id 1) ∧ 0 < e.2.quantity ∧
        e.2.name = p.name ∧
        e.2.unit_wholesale = p.wholesale_price ∧
        e.2.total_cost = p.wholesale_price * (e.2.quantity : ℚ) ∧
        e.2.unit_retail = p.retail_price ∧
        e.2.total_revenue = p.retail_price * (e.2.quantity : ℚ) ∧
        e.2.margin = e.2.total_revenue - e.2.total_cost ∧
        e.2.weight_kg = p.weight_g / 1000 * (e.2.quantity : ℚ) ∧
        e.2.volume_m3 = p.size_cm3 / 1000000 * (e.2.quantity : ℚ)) ∧
      (∀ p ∈ [exProduct], 0 < pyInt (exSol.value p.id 1) →
        ∃ e, (p.id, e) ∈ monthOrders [exProduct] exSol 1 ∧
          e.quantity = pyInt (exSol.value p.id 1))) := by
  have hraw : SolverRawStatus.OPTIMAL = SolverRawStatus.OPTIMAL ∨
      SolverRawStatus.OPTIMAL = SolverRawStatus.FEASIBLE := Or.inl rfl
  have hm : 1 ∈ monthsRange exOptConfig := by
    simp [monthsRange, exOptConfig, List.range']
  exact ⟨hraw, hm,
    extract_orders_truncation exOptConfig [exProduct] exSol SolverRawStatus.OPTIMAL
      hraw 1 hm⟩

/-- C1 counterexample: the source truncates instead of rounding to nearest — with
a solver value of 5 − 10⁻⁶ (a near-integer from floating tolerance), the recorded
quantity is 4, not the nearest integer 5 as the claim states. -/
theorem extract_orders_rounds_down :
    ((extract_results exOptConfig [exProduct] exSolNearInt
        SolverRawStatus.OPTIMAL).purchase_orders.lookup 1 =
      some [("P1", OrderEntry.mk "Widget" 4 10 40 20 80 40 2 (1/250))]) ∧
    round ((4999999 : ℚ) / 1000000) = 5 ∧
    ((4 : ℤ) ≠ round ((4999999 : ℚ) / 1000000)) := by
  have hqty : pyInt ((4999999 : ℚ) / 1000000) = 4 := by
    unfold pyInt
    rw [if_pos (by norm_num)]
    exact floor_eq_of _ 4 (by norm_num) (by norm_num)
  have hround : round ((4999999 : ℚ) / 1000000) = 5 := by
    rw [round_eq]
    exact floor_eq_of _ 5 (by norm_num) (by norm_num)
  refine ⟨?_, hround, by rw [hround]; norm_num⟩
  have hmo : monthOrders [exProduct] exSolNearInt 1 =
      [("P1", OrderEntry.mk "Widget" 4 10 40 20 80 40 2 (1/250))] := by
    unfold monthOrders
    simp only [List.filterMap_cons, List.filterMap_nil, exSolNearInt, exProduct, hqty]
    norm_num [mkOrderEntry]
  unfold extract_results
  rw [if_pos (by simp [classifyStatus])]
  simp only [monthsRange, exOptConfig, List.range']
  norm_num [List.lookup, hmo]

/-- Python control flow of one call: a normal return, an `Exception` (caught by
`except Exception`), or a KeyboardInterrupt-style cancellation, which derives
from BaseException and is NOT caught by `except Exception`. -/
inductive PyOutcome (α : Type)
  | ok (a : α)
  | exc (msg : String)
  | interrupt

/-- The value returned by `optimize`: either the `_extract_results` dict or the
`{'status': 'ERROR', 'message': ...}` dict. -/
inductive OptimizeResult
  | errorResult (message : String)
  | report (r : ResultDict)

/-- `optimize` from `spcplan.py`: `CreateSolver` may fail (solver-unavailable
ERROR dict); otherwise the try-block — variables, objective, constraints,
`Solve()` — either produces a raw solver status (then the extracted results are
returned), raises an Exception (converted by `except Exception` to an ERROR dict
with the exception's message), or is cancelled (KeyboardInterrupt propagates).
The try-block is abstracted by its outcome `attempt` and the solver's assignment
by `sol`. -/
def optimize (solverAvailable : Bool) (cfg : OptimizerConfig) (products : List Product)
    (attempt : PyOutcome SolverRawStatus) (sol : Solution) : PyOutcome OptimizeResult :=
  if solverAvailable = false then
    PyOutcome.ok (OptimizeResult.errorResult
      ("Solver " ++ cfg.solver_type ++ " unavailable"))
  else
    match attempt with
    | .ok raw =>
        PyOutcome.ok (OptimizeResult.report (extract_results cfg products sol raw))
    | .exc msg => PyOutcome.ok (OptimizeResult.errorResult msg)
    | .interrupt => PyOutcome.interrupt

/-- C5: optimize never lets an exception escape its public boundary — it never
returns an uncaught Exception; a cancellation propagates exactly when the solver
was constructed and the try-block was interrupted; an unavailable solver engine
yields the ERROR dict with the unavailability message; an Exception during model
building or solving yields an ERROR dict carrying its message; and a normal
solve returns the extracted results. -/
theorem optimize_failure_semantics (avail : Bool) (cfg : OptimizerConfig)
    (products : List Product) (attempt : PyOutcome SolverRawStatus) (sol : Solution) :
    (∀ msg, optimize avail cfg products attempt sol ≠ PyOutcome.exc msg) ∧
    (optimize avail cfg products attempt sol = PyOutcome.interrupt ↔
      avail = true ∧ attempt = PyOutcome.interrupt) ∧
    (avail = false → optimize avail cfg products attempt sol =
      PyOutcome.ok (OptimizeResult.errorResult
        ("Solver " ++ cfg.solver_type ++ " unavailable"))) ∧
    (∀ msg, avail = true → attempt = PyOutcome.exc msg →
      optimize avail cfg products attempt sol =
        PyOutcome.ok (OptimizeResult.errorResult msg)) ∧
    (∀ raw, avail = true → attempt = PyOutcome.ok raw →
      optimize avail cfg products attempt sol =
        PyOutcome.ok (OptimizeResult.report (extract_results cfg products sol raw))) := by
  cases avail <;> cases attempt <;> simp [optimize]

theorem optimize_failure_semantics_witness :
    (optimize false exOptConfig [exProduct] (PyOutcome.ok SolverRawStatus.OPTIMAL) exSol =
      PyOutcome.ok (OptimizeResult.errorResult
        ("Solver " ++ exOptConfig.solver_type ++ " unavailable"))) ∧
    (optimize true exOptConfig [exProduct] (PyOutcome.exc "boom") exSol =
      PyOutcome.ok (OptimizeResult.errorResult "boom")) ∧
    (optimize true exOptConfig [exProduct] PyOutcome.interrupt exSol =
      PyOutcome.interrupt) :=
  ⟨(optimize_failure_semantics false exOptConfig [exProduct]
      (PyOutcome.ok SolverRawStatus.OPTIMAL) exSol).2.2.1 rfl,
    (optimize_failure_semantics true exOptConfig [exProduct]
      (PyOutcome.exc "boom") exSol).2.2.2.1 "boom" rfl rfl,
    (optimize_failure_semantics true exOptConfig [exProduct]
      PyOutcome.interrupt exSol).2.1.mpr ⟨rfl, rfl⟩⟩

end OnlineShop
